import Mathlib

/-!
Shallow embedding of the `up` repository's composition engine
(`internal/vendor/github.com/crossplane/crossplane/controller/apiextensions/composite/composition_pt.go`)
and of the space control-plane client (`internal/controlplane/space/space.go`).

Go objects that are mutated in place are modelled by functions returning the
post-call state of every mutated argument.  Kubernetes unstructured objects are
modelled as records whose free-form body is an association list from field path
to string value, as the spec's design notes prescribe (a document keyed by
path with explicit get/set-by-path).
-/

set_option autoImplicit false

namespace Up

/-! ### String-keyed association maps (field documents, labels, annotations) -/

/-- Look up a key in an association list, returning `none` when absent.
Models indexing a Go `map[string]string` / field-path resolution. -/
def lookup? (m : List (String × String)) (k : String) : Option String :=
  match m with
  | [] => none
  | kv :: rest => if kv.1 = k then some kv.2 else lookup? rest k

/-- Look up a key, returning `""` when absent.  Models Go's
`m[k]` on a `map[string]string`, which yields the zero value for a missing key. -/
def lookupD (m : List (String × String)) (k : String) : String :=
  match m with
  | [] => ""
  | kv :: rest => if kv.1 = k then kv.2 else lookupD rest k

/-- Set a key to a value, replacing an existing binding or appending a new one.
Models a Go map write / field-path write. -/
def setKey (m : List (String × String)) (k v : String) : List (String × String) :=
  match m with
  | [] => [(k, v)]
  | kv :: rest => if kv.1 = k then (k, v) :: rest else kv :: setKey rest k v

/-! ### Data model -/

/-- Embeds `corev1.ObjectReference`, restricted to the fields this code reads/writes. -/
structure ObjectReference where
  apiVersion : String := ""
  kind : String := ""
  name : String := ""
  ns : String := ""
deriving DecidableEq

/-- The zero value of `corev1.ObjectReference` (Go's `corev1.ObjectReference{}`). -/
def ObjectReference.empty : ObjectReference := {}

/-- Embeds `metav1.OwnerReference`, restricted to the fields this code uses. -/
structure OwnerReference where
  apiVersion : String
  kind : String
  name : String
  controller : Bool
deriving DecidableEq

/-- The composite resource (XR): `resource.Composite`.  `fields` is its
free-form body, `resourceRefs` its `Spec.ResourceRefs`. -/
structure Composite where
  apiVersion : String := ""
  kind : String := ""
  name : String := ""
  labels : List (String × String) := []
  fields : List (String × String) := []
  resourceRefs : List ObjectReference := []
deriving DecidableEq

/-- A composed resource: `resource.Composed` (an unstructured object).
`fields` is the free-form body reached by patch destination paths; the
metadata the renderer manages is kept in named components. -/
structure Composed where
  apiVersion : String := ""
  kind : String := ""
  name : String := ""
  ns : String := ""
  generateName : String := ""
  labels : List (String × String) := []
  annots : List (String × String) := []
  ownerRef : Option OwnerReference := none
  fields : List (String × String) := []
deriving DecidableEq

/-- The zero composed resource. -/
def Composed.empty : Composed := {}

/-- Embeds `v1.PatchType`.  `patchSet` is the indirection replaced by patch-set
inlining; the rest determine the patch's direction and filtering group. -/
inductive PatchType where
  | fromComposite
  | combineFromComposite
  | toComposite
  | combineToComposite
  | fromEnvironment
  | toEnvironment
  | patchSet
deriving DecidableEq

/-- Embeds `v1.Patch`: a typed directive with a source path, a destination path and a
required-policy flag (the spec's "a patch is a no-op if its source path does
not resolve, unless a policy marks it required"). -/
structure Patch where
  type : PatchType
  patchSetName : String := ""
  fromFieldPath : String := ""
  toFieldPath : String := ""
  required : Bool := false
deriving DecidableEq

/-- Embeds `v1.ComposedTemplate`: an optional stable name, a base object body and an
ordered patch list.  The base is kept pre-parsed; `json.Unmarshal(t.Base.Raw, cd)`
becomes wholesale replacement of the composed resource by `base`. -/
structure ComposedTemplate where
  name : Option String := none
  base : Composed := {}
  patches : List Patch := []
deriving DecidableEq

/-- The default (empty) template. -/
def ComposedTemplate.empty : ComposedTemplate := {}

/-- Embeds `env.Environment`: an auxiliary object used only as a patch source/target. -/
structure Environment where
  fields : List (String × String) := []
deriving DecidableEq

/-- An environment patch (`req.Composition.Spec.Environment.Patches` entries). -/
structure EnvironmentPatch where
  type : PatchType
  fromFieldPath : String := ""
  toFieldPath : String := ""
  required : Bool := false
deriving DecidableEq

/-- A named reusable patch set (`v1.PatchSet`). -/
structure PatchSetDef where
  psName : String
  patches : List Patch
deriving DecidableEq

/-- The Composition's environment configuration (just its patch list here). -/
structure EnvironmentSpec where
  patches : List EnvironmentPatch
deriving DecidableEq

/-- Embeds `v1.CompositionSpec`, restricted to what `Compose` reads. -/
structure CompositionSpec where
  patchSets : List PatchSetDef := []
  resources : List ComposedTemplate := []
  environment : Option EnvironmentSpec := none
deriving DecidableEq

/-- Embeds `CompositionRequest`: the Composition plus an optional Environment. -/
structure CompositionRequest where
  composition : CompositionSpec
  environment : Option Environment := none
deriving DecidableEq

/-! ### Template association (`AssociateByOrder`, `GarbageCollectingAssociator`) -/

/-- Embeds `TemplateAssociation`: a template paired with a (possibly empty) reference. -/
structure TemplateAssociation where
  Template : ComposedTemplate
  Reference : ObjectReference
deriving DecidableEq

/-- The default association (zero value). -/
def TemplateAssociation.empty : TemplateAssociation :=
  { Template := {}, Reference := ObjectReference.empty }

/-- Embeds `AssociateByOrder`: template `i` is paired with reference `i`; the result
always has one entry per template; extra references are truncated and
templates beyond the references keep the zero-value reference.  (The source
writes `a[i].Reference = r[i]` for `i < min len`; this recursion walks both
lists in step.) -/
def AssociateByOrder : List ComposedTemplate → List ObjectReference → List TemplateAssociation
  | [], _ => []
  | t :: ts, [] => { Template := t, Reference := ObjectReference.empty } :: AssociateByOrder ts []
  | t :: ts, r :: rs => { Template := t, Reference := r } :: AssociateByOrder ts rs

/-- Embeds `GarbageCollectingAssociator.AssociateTemplates`.  The source loops over
the templates and, on the first template with a nil name, returns
`AssociateByOrder(ct, cr.GetResourceReferences())`; when every template is
named it builds a name-to-index map that it never reads again and returns one
association per template with the zero-value reference.  (Its doc comment
still describes association by template-name annotation and garbage
collection of unmatched references, which this body does not perform.) -/
def GCAssociateTemplates (cr : Composite) (ct : List ComposedTemplate) : List TemplateAssociation :=
  if ct.any (fun t => t.name.isNone) then
    AssociateByOrder ct cr.resourceRefs
  else
    ct.map (fun t => { Template := t, Reference := ObjectReference.empty })

/-! ### Patch engine

`Apply`, `ApplyToObjects`, `ApplyEnvironmentPatch` and the `patchTypes*`
helpers live elsewhere in the vendored package (only their call sites are in
this repository's sources).  They are modelled from the spec (section 4.2):
a patch whose type is not in the allowed set is a no-op; an unresolved source
path is silently skipped unless the patch is required; otherwise the value is
written to the destination path of the destination object. -/

/-- Modelled from the spec: the patch types applied when rendering a composed
resource from the composite (`patchTypesFromXR`). -/
def patchTypesFromXR : List PatchType := [.fromComposite, .combineFromComposite]

/-- Modelled from the spec: the patch types applied when rendering the
composite from a composed resource (`patchTypesToXR`). -/
def patchTypesToXR : List PatchType := [.toComposite, .combineToComposite]

/-- Modelled from the spec: the environment-sourced/targeted patch types
(`patchTypesFromToEnvironment`). -/
def patchTypesFromToEnvironment : List PatchType := [.fromEnvironment, .toEnvironment]

/-- Modelled from the spec: `Apply(patch, xr, cd, onlyTypes...)`, the patch
engine between the composite and a composed resource.  Returns the post-call
states of both objects; `.error` models a `MissingRequiredField` failure. -/
def Apply (p : Patch) (cp : Composite) (cd : Composed) (allowed : List PatchType) :
    Except Unit (Composite × Composed) :=
  if p.type ∈ allowed then
    match p.type with
    | .fromComposite | .combineFromComposite =>
      match lookup? cp.fields p.fromFieldPath with
      | none => if p.required then .error () else .ok (cp, cd)
      | some v => .ok (cp, { cd with fields := setKey cd.fields p.toFieldPath v })
    | .toComposite | .combineToComposite =>
      match lookup? cd.fields p.fromFieldPath with
      | none => if p.required then .error () else .ok (cp, cd)
      | some v => .ok ({ cp with fields := setKey cp.fields p.toFieldPath v }, cd)
    | _ => .ok (cp, cd)
  else .ok (cp, cd)

/-- Modelled from the spec: `ApplyToObjects(patch, env, cd, onlyTypes...)`,
the patch engine between the environment and a composed resource. -/
def ApplyToObjects (p : Patch) (e : Environment) (cd : Composed) (allowed : List PatchType) :
    Except Unit (Environment × Composed) :=
  if p.type ∈ allowed then
    match p.type with
    | .fromEnvironment =>
      match lookup? e.fields p.fromFieldPath with
      | none => if p.required then .error () else .ok (e, cd)
      | some v => .ok (e, { cd with fields := setKey cd.fields p.toFieldPath v })
    | .toEnvironment =>
      match lookup? cd.fields p.fromFieldPath with
      | none => if p.required then .error () else .ok (e, cd)
      | some v => .ok ({ e with fields := setKey e.fields p.toFieldPath v }, cd)
    | _ => .ok (e, cd)
  else .ok (e, cd)

/-- Modelled from the spec: `ApplyEnvironmentPatch(p, xr, env)` applies one
declared environment patch, mutating the composite and/or the environment. -/
def ApplyEnvironmentPatch (p : EnvironmentPatch) (cp : Composite) (e : Environment) :
    Except Unit (Composite × Environment) :=
  match p.type with
  | .fromComposite | .combineFromComposite =>
    match lookup? cp.fields p.fromFieldPath with
    | none => if p.required then .error () else .ok (cp, e)
    | some v => .ok (cp, { e with fields := setKey e.fields p.toFieldPath v })
  | .toComposite | .combineToComposite =>
    match lookup? e.fields p.fromFieldPath with
    | none => if p.required then .error () else .ok (cp, e)
    | some v => .ok ({ cp with fields := setKey cp.fields p.toFieldPath v }, e)
  | _ => .ok (cp, e)

/-! ### Composed-resource renderer (`APIDryRunRenderer.Render`) -/

/-- Modelled from the spec: the `xcrd` label key carrying the composite's
name prefix for composed resources (the spec's example uses
`crossplane.io/composite-name-prefix`). -/
def LabelKeyNamePfx : String := "crossplane.io/composite-name-prefix"

/-- Modelled from the spec: the `xcrd` claim-name label key. -/
def LabelKeyClaimName : String := "crossplane.io/claim-name"

/-- Modelled from the spec: the `xcrd` claim-namespace label key. -/
def LabelKeyClaimNs : String := "crossplane.io/claim-namespace"

/-- Modelled from the spec: the annotation key written by
`SetCompositionResourceName` (the template's stable resource-name annotation). -/
def AnnotKeyResourceName : String := "crossplane.io/composition-resource-name"

/-- Errors of one composed-resource render (`APIDryRunRenderer.Render`). -/
inductive RenderErr where
  | kindChanged
  | missingNamePfx
  | patchFailed (i : Nat)
  | setControllerRef
deriving DecidableEq

/-- The post-call state of `Render`'s three mutable arguments plus its error.
Go mutates `cp`, `cd` and `env` in place and returns only the error; all four
components are therefore surfaced here. -/
structure RenderResult where
  cp : Composite
  cd : Composed
  env : Option Environment
  err : Option RenderErr
deriving DecidableEq

/-- The outcome of the patch loop of `Render` (lines 378-387 of the source):
post-call objects plus the index of the first failing patch, if any. -/
structure PatchPhaseOut where
  cp : Composite
  cd : Composed
  env : Option Environment
  errIdx : Option Nat
deriving DecidableEq

/-- The patch loop of `Render`: for each patch index `i`, apply the patch with
the composite-source filter, then — when an environment is present — apply the
same patch with the environment filter; stop at the first failure, reporting
its index. -/
def applyTemplatePatches :
    Composite → Composed → Option Environment → List Patch → Nat → PatchPhaseOut
  | cp, cd, e, [], _ => ⟨cp, cd, e, none⟩
  | cp, cd, e, p :: ps, i =>
    match Apply p cp cd patchTypesFromXR with
    | .error _ => ⟨cp, cd, e, some i⟩
    | .ok (cp1, cd1) =>
      match e with
      | none => applyTemplatePatches cp1 cd1 none ps (i + 1)
      | some ev =>
        match ApplyToObjects p ev cd1 patchTypesFromToEnvironment with
        | .error _ => ⟨cp1, cd1, some ev, some i⟩
        | .ok (ev1, cd2) => applyTemplatePatches cp1 cd2 (some ev1) ps (i + 1)

/-- Embeds `meta.AddLabels`: merge the given label map into the resource's labels. -/
def addLabels (cd : Composed) (kvs : List (String × String)) : Composed :=
  { cd with labels := kvs.foldl (fun m kv => setKey m kv.1 kv.2) cd.labels }

/-- The composed labels stamped after patching (source lines 390-394). -/
def stampLabels (cp : Composite) (cd : Composed) : Composed :=
  addLabels cd
    [(LabelKeyNamePfx, lookupD cp.labels LabelKeyNamePfx),
     (LabelKeyClaimName, lookupD cp.labels LabelKeyClaimName),
     (LabelKeyClaimNs, lookupD cp.labels LabelKeyClaimNs)]

/-- Embeds `SetCompositionResourceName` for a named template (source lines 396-398). -/
def stampResourceName (t : ComposedTemplate) (cd : Composed) : Composed :=
  match t.name with
  | some n => { cd with annots := setKey cd.annots AnnotKeyResourceName n }
  | none => cd

/-- Embeds `meta.AsController(meta.TypedReferenceTo(cp, ...))`: the controller owner
reference pointing at the composite. -/
def asController (cp : Composite) : OwnerReference :=
  { apiVersion := cp.apiVersion, kind := cp.kind, name := cp.name, controller := true }

/-- Embeds `meta.AddControllerReference`: set the controller reference, failing when a
different controller reference is already present. -/
def addControllerReference (cd : Composed) (o : OwnerReference) : Except Unit Composed :=
  match cd.ownerRef with
  | some existing => if existing = o then .ok cd else .error ()
  | none => .ok { cd with ownerRef := some o }

/-- The state of the composed resource right before the patch loop of
`Render`: the unmarshalled base with generate name set and the snapshotted
name/namespace restored (source lines 374-376). -/
def renderBase (cp : Composite) (cd : Composed) (t : ComposedTemplate) : Composed :=
  { t.base with
    generateName := lookupD cp.labels LabelKeyNamePfx ++ "-",
    name := cd.name, ns := cd.ns }

/-- The patch loop of `Render` run from the restored base. -/
def renderPatchPhase (cp : Composite) (cd : Composed) (t : ComposedTemplate)
    (env : Option Environment) : PatchPhaseOut :=
  applyTemplatePatches cp (renderBase cp cd t) env t.patches 0

/-- Embeds `APIDryRunRenderer.Render` (source lines 350-422).  Snapshot
kind/name/namespace; overwrite the resource with the unmarshalled base; fail
on a kind change; require the composite's name-prefix label; set generate name
and restore name/namespace; run the patch loop; stamp labels and the
resource-name annotation; set the controller reference last.  In this vendored
copy the trailing dry-run create is stubbed out (both branches return nil), so
a successful render ends here. -/
def Render (cp : Composite) (cd : Composed) (t : ComposedTemplate) (env : Option Environment) :
    RenderResult :=
  if cd.kind ≠ "" ∧ t.base.kind ≠ cd.kind then ⟨cp, t.base, env, some .kindChanged⟩
  else if lookupD cp.labels LabelKeyNamePfx = "" then ⟨cp, t.base, env, some .missingNamePfx⟩
  else
    let pp := renderPatchPhase cp cd t env
    match pp.errIdx with
    | some i => ⟨pp.cp, pp.cd, pp.env, some (.patchFailed i)⟩
    | none =>
      let cd5 := stampResourceName t (stampLabels cp pp.cd)
      match addControllerReference cd5 (asController cp) with
      | .error _ => ⟨pp.cp, cd5, pp.env, some .setControllerRef⟩
      | .ok cd6 => ⟨pp.cp, cd6, pp.env, none⟩

/-! ### Composer (`PTComposer.Compose`) -/

/-- Modelled from the spec: one step of `ComposedTemplates` patch-set
inlining — a patch of type `patchSet` is replaced by the patches of the named
set, failing when no set of that name exists; other patches pass through. -/
def resolvePatch (psets : List PatchSetDef) (p : Patch) : Except Unit (List Patch) :=
  match p.type with
  | .patchSet =>
    match psets.find? (fun s => s.psName = p.patchSetName) with
    | none => .error ()
    | some s => .ok s.patches
  | _ => .ok [p]

/-- Modelled from the spec: inline patch sets into one patch list. -/
def inlinePatches (psets : List PatchSetDef) : List Patch → Except Unit (List Patch)
  | [] => .ok []
  | p :: ps =>
    match resolvePatch psets p, inlinePatches psets ps with
    | .ok l, .ok rest => .ok (l ++ rest)
    | .error e, _ => .error e
    | _, .error e => .error e

/-- Modelled from the spec: inline patch sets into every template. -/
def inlineTemplates (psets : List PatchSetDef) :
    List ComposedTemplate → Except Unit (List ComposedTemplate)
  | [] => .ok []
  | t :: ts =>
    match inlinePatches psets t.patches, inlineTemplates psets ts with
    | .ok ps, .ok rest => .ok ({ t with patches := ps } :: rest)
    | .error e, _ => .error e
    | _, .error e => .error e

/-- Modelled from the spec: `ComposedTemplates(req.Composition.Spec)` — expand
reusable patch sets referenced by name into each template's inline patch list,
failing fatally if a referenced set does not exist. -/
def ComposedTemplates (spec : CompositionSpec) : Except Unit (List ComposedTemplate) :=
  inlineTemplates spec.patchSets spec.resources

/-- Embeds `ComposedResourceState`: the Composer's output unit. -/
structure ComposedResourceState where
  ResourceName : String
  TemplateRenderErr : Option RenderErr
  Template : ComposedTemplate
  Resource : Composed
deriving DecidableEq

/-- The default (empty) composed-resource state. -/
def ComposedResourceState.empty : ComposedResourceState :=
  { ResourceName := "", TemplateRenderErr := none, Template := {}, Resource := {} }

/-- Embeds `composed.New(composed.FromReference(ref))`: a fresh composed resource
carrying the reference's identity. -/
def composedFromReference (ref : ObjectReference) : Composed :=
  { apiVersion := ref.apiVersion, kind := ref.kind, name := ref.name, ns := ref.ns }

/-- Embeds `meta.ReferenceTo(r, r.GetObjectKind().GroupVersionKind())`. -/
def referenceTo (cd : Composed) : ObjectReference :=
  { apiVersion := cd.apiVersion, kind := cd.kind, name := cd.name, ns := cd.ns }

/-- The type of the injected composed-resource renderer
(`PTComposer.composed.Renderer`, configurable via `WithComposedRenderer`).
Arguments: composite, composed resource, template, environment; the result is
the post-call state of the three mutable arguments plus the render error. -/
def RenderFn : Type :=
  Composite → Composed → ComposedTemplate → Option Environment → RenderResult

/-- The state built up by `Compose`'s render loop (source lines 176-197):
the composed-resource states, the reference array, and the threaded composite
and environment (both shared, mutable-in-place objects in the source). -/
structure LoopOut where
  states : List ComposedResourceState
  refs : List ObjectReference
  cp : Composite
  env : Option Environment

/-- Embeds `Compose`'s render loop: for association index `i`, the resource name is
the template name or the stringified index; a fresh composed resource is made
from the association's reference; the renderer runs (its error recorded, never
fatal); the state and the reference to the rendered resource are appended. -/
def composeLoop (render : RenderFn) :
    List TemplateAssociation → Composite → Option Environment → Nat → LoopOut
  | [], cp, e, _ => ⟨[], [], cp, e⟩
  | ta :: tas, cp, e, i =>
    let nm := ta.Template.name.getD (toString i)
    let out := render cp (composedFromReference ta.Reference) ta.Template e
    let st : ComposedResourceState :=
      { ResourceName := nm, TemplateRenderErr := out.err,
        Template := ta.Template, Resource := out.cd }
    let rest := composeLoop render tas out.cp out.env (i + 1)
    ⟨st :: rest.states, referenceTo out.cd :: rest.refs, rest.cp, rest.env⟩

/-- The environment-patch loop of `Compose` (source lines 161-167): apply each
declared environment patch in order, stopping at the first failure and
reporting its index; the composite and environment keep the mutations of the
successful patches. -/
def applyEnvironmentPatches :
    List EnvironmentPatch → Composite → Environment → Nat →
    Composite × Environment × Option Nat
  | [], cp, e, _ => (cp, e, none)
  | p :: ps, cp, e, i =>
    match ApplyEnvironmentPatch p cp e with
    | .error _ => (cp, e, some i)
    | .ok (cp1, e1) => applyEnvironmentPatches ps cp1 e1 (i + 1)

/-- Fatal errors of `Compose`. -/
inductive ComposeErr where
  | inline
  | envPatch (i : Nat)
deriving DecidableEq

/-- The outcome of `Compose`: the post-call composite and environment (mutated
in place in the source, hence visible to the caller even on error) and either
the ordered state array or the fatal error. -/
structure ComposeOutput where
  xr : Composite
  env : Option Environment
  result : Except ComposeErr (List ComposedResourceState)

/-- The tail of `Compose` after a successful environment-patch phase: run the
render loop over every association, then set the composite's resource
references to the collected reference array before returning. -/
def composeRest (render : RenderFn) (xr : Composite) (env : Option Environment)
    (tas : List TemplateAssociation) : ComposeOutput :=
  let lo := composeLoop render tas xr env 0
  ⟨{ lo.cp with resourceRefs := lo.refs }, lo.env, .ok lo.states⟩

/-- The environment-patch phase of `Compose` followed by its render loop:
a failure at index `i` is fatal (the composite and environment keep the
mutations of the successful earlier patches); otherwise rendering proceeds
with the patched composite and environment. -/
def composeWithEnv (render : RenderFn) (xr : Composite) (e : Environment)
    (es : EnvironmentSpec) (tas : List TemplateAssociation) : ComposeOutput :=
  match applyEnvironmentPatches es.patches xr e 0 with
  | (xr1, e1, some i) => ⟨xr1, some e1, .error (.envPatch i)⟩
  | (xr1, e1, none) => composeRest render xr1 (some e1) tas

/-- Embeds `PTComposer.Compose` (source lines 147-210): inline patch sets (fatal on
failure), associate templates (cannot fail in this code), apply environment
patches when both an environment and an environment configuration are present
(fatal at the first failing index), then render every associated template and
set the composite's references before returning. -/
def Compose (render : RenderFn) (xr : Composite) (req : CompositionRequest) : ComposeOutput :=
  match ComposedTemplates req.composition with
  | .error _ => ⟨xr, req.environment, .error .inline⟩
  | .ok ct =>
    let tas := GCAssociateTemplates xr ct
    match req.environment, req.composition.environment with
    | some e, some es => composeWithEnv render xr e es tas
    | oenv, _ => composeRest render xr oenv tas

/-! ### Space control-plane client (`internal/controlplane/space/space.go`) -/

/-- Embeds `controlplane.Options`, restricted to the fields `Create` reads. -/
structure Options where
  SecretName : String := ""
  SecretNamespace : String := ""
deriving DecidableEq

/-- Embeds `xpcommonv1.SecretReference`. -/
structure SecretReference where
  name : String
  ns : String
deriving DecidableEq

/-- The ControlPlane object `Create` builds before sending it to the API. -/
structure ControlPlane where
  name : String
  writeConnectionSecretToRef : Option SecretReference
deriving DecidableEq

/-- Embeds `calculateSecret`: default an empty `SecretName` to
`fmt.Sprintf("kubeconfig-%s", name)`; keep a non-empty one unchanged. -/
def calculateSecret (name : String) (opts : Options) : Options :=
  if opts.SecretName = "" then { opts with SecretName := "kubeconfig-" ++ name } else opts

/-- The object-construction part of `Client.Create` (source lines 94-102):
compute the secret options, then build the ControlPlane with the given name
and the write-connection-secret reference.  (The dynamic-client round trip is
outside this model.) -/
def createControlPlaneObject (name : String) (opts : Options) : ControlPlane :=
  let o := calculateSecret name opts
  { name := name,
    writeConnectionSecretToRef := some { name := o.SecretName, ns := o.SecretNamespace } }

/-! ### Auxiliary notions for the verification -/

/-- Two composed resources agree on everything the renderer's patch loop
cannot touch (every component except the free-form field document). -/
def sameMeta (a b : Composed) : Prop :=
  a.name = b.name ∧ a.ns = b.ns ∧ a.kind = b.kind ∧ a.generateName = b.generateName ∧
  a.ownerRef = b.ownerRef ∧ a.apiVersion = b.apiVersion ∧ a.labels = b.labels ∧
  a.annots = b.annots

/-- The renderer with the same state effects but every error suppressed: used
to express that a render failure changes nothing but the recorded error. -/
def stripRenderErr (r : RenderFn) : RenderFn :=
  fun cp cd t e => { r cp cd t e with err := none }

/-- The state entry `Compose`'s loop produces at position `j`: the renderer is
invoked on the composite/environment threaded through the first `j` render
calls, on a fresh resource made from association `j`'s reference, and the
entry records that call's rendered resource and error. -/
def loopEntry (r : RenderFn) (tas : List TemplateAssociation) (cp : Composite)
    (e : Option Environment) (i j : Nat) : ComposedResourceState :=
  let pre := composeLoop r (List.take j tas) cp e i
  let ta := tas.getD j TemplateAssociation.empty
  let out := r pre.cp (composedFromReference ta.Reference) ta.Template pre.env
  { ResourceName := ta.Template.name.getD (toString (i + j)),
    TemplateRenderErr := out.err, Template := ta.Template, Resource := out.cd }

/-- The composed resource produced by the patch phase when a template's two
patches write `vC` then `vE` to the same destination path `dst`. -/
def twoPatchResult (cp : Composite) (cd : Composed) (t : ComposedTemplate)
    (dst vC vE : String) : Composed :=
  { renderBase cp cd t with
    fields := setKey (setKey (renderBase cp cd t).fields dst vC) dst vE }

/-! ### Concrete instances used by witnesses and counterexamples -/

/-- A template with the stable name `"a"`. -/
def tmplNamedA : ComposedTemplate := { name := some "a" }

/-- An existing composed-resource reference whose recorded template no longer
exists in the Composition. -/
def refLegacy : ObjectReference :=
  { apiVersion := "example.org/v1", kind := "Bucket", name := "legacy-res" }

/-- A composite holding exactly the legacy reference. -/
def xrOneRef : Composite := { resourceRefs := [refLegacy] }

/-- An anonymous template. -/
def tmplAnon : ComposedTemplate := {}

/-- Three distinct existing references. -/
def refsThree : List ObjectReference :=
  [{ apiVersion := "v1", kind := "A", name := "ra" },
   { apiVersion := "v1", kind := "B", name := "rb" },
   { apiVersion := "v1", kind := "C", name := "rc" }]

/-- A composite holding the three references. -/
def xrThreeRefs : Composite := { resourceRefs := refsThree }

/-- A composite carrying the name-prefix label and an identity. -/
def cpOK : Composite :=
  { apiVersion := "example.org/v1", kind := "XR", name := "parent",
    labels := [(LabelKeyNamePfx, "acme")], fields := [("spec.c", "C")] }

/-- A template named `"primary"` over a `Bucket` base, with no patches. -/
def tOK : ComposedTemplate :=
  { name := some "primary", base := { apiVersion := "example.org/v1", kind := "Bucket" } }

/-- An already-named composed resource with a pre-existing generate name. -/
def cdNamed : Composed := { name := "existing", ns := "default", generateName := "other-" }

/-- An observed composed resource of kind `Bucket`. -/
def cdPrior : Composed :=
  { apiVersion := "example.org/v1", kind := "Bucket", name := "existing",
    fields := [("spec.size", "5")] }

/-- A template whose base kind (`Cache`) differs from `cdPrior`'s kind. -/
def tKindChange : ComposedTemplate :=
  { name := some "primary", base := { apiVersion := "example.org/v1", kind := "Cache" } }

/-- An environment carrying one value. -/
def eC7 : Environment := { fields := [("data.e", "E")] }

/-- A template with a composite-sourced patch followed by an
environment-sourced patch on the same destination path. -/
def tC7 : ComposedTemplate :=
  { name := some "t", base := { kind := "Bucket" },
    patches :=
      [{ type := .fromComposite, fromFieldPath := "spec.c", toFieldPath := "spec.x" },
       { type := .fromEnvironment, fromFieldPath := "data.e", toFieldPath := "spec.x" }] }

/-- The same two patches in the opposite template order. -/
def tC7rev : ComposedTemplate :=
  { name := some "t", base := { kind := "Bucket" },
    patches :=
      [{ type := .fromEnvironment, fromFieldPath := "data.e", toFieldPath := "spec.x" },
       { type := .fromComposite, fromFieldPath := "spec.c", toFieldPath := "spec.x" }] }

/-- A renderer that leaves every object unchanged and never fails. -/
def idRender : RenderFn := fun cp cd _ e => ⟨cp, cd, e, none⟩

/-- An empty composite. -/
def xrPlain : Composite := {}

/-- An environment providing the value an environment patch copies onto the
composite. -/
def eEnv : Environment := { fields := [("a", "V")] }

/-- Environment patch 0: environment path `a` to composite path `x`. -/
def envPatch0 : EnvironmentPatch :=
  { type := .toComposite, fromFieldPath := "a", toFieldPath := "x" }

/-- Environment patch 1: a required patch whose composite source is absent. -/
def envPatch1 : EnvironmentPatch :=
  { type := .fromComposite, fromFieldPath := "missing", toFieldPath := "y", required := true }

/-- A request whose environment-patch phase mutates the composite at index 0
and fails at index 1. -/
def reqEnvFail : CompositionRequest :=
  { composition := { environment := some { patches := [envPatch0, envPatch1] } },
    environment := some eEnv }

/-- A template named `"bad"` whose single required patch has no resolvable
source, so its render fails. -/
def tBad : ComposedTemplate :=
  { name := some "bad", base := { apiVersion := "example.org/v1", kind := "Cache" },
    patches :=
      [{ type := .fromComposite, fromFieldPath := "spec.missing", toFieldPath := "spec.y",
         required := true }] }

/-- A request over one rendering and one failing template. -/
def reqMixed : CompositionRequest :=
  { composition := { resources := [tOK, tBad] } }

/-- The state array `Compose` produces for `reqMixed` under the real renderer. -/
def cdsMixed : List ComposedResourceState :=
  (composeLoop Render (GCAssociateTemplates cpOK [tOK, tBad]) cpOK none 0).states

/-! ## Theorems -/

/-! ### Association lemmas -/

theorem length_associateByOrder (ts : List ComposedTemplate) (rs : List ObjectReference) :
    (AssociateByOrder ts rs).length = ts.length := by
  induction ts generalizing rs with
  | nil => rfl
  | cons t ts ih => cases rs <;> simp [AssociateByOrder, ih]

theorem associateByOrder_getD (ts : List ComposedTemplate) (rs : List ObjectReference)
    (j : Nat) (hj : j < ts.length) :
    (AssociateByOrder ts rs).getD j TemplateAssociation.empty =
      { Template := ts.getD j ComposedTemplate.empty,
        Reference := rs.getD j ObjectReference.empty } := by
  induction ts generalizing rs j with
  | nil => exact absurd hj (by simp)
  | cons t ts ih =>
    cases rs with
    | nil =>
      cases j with
      | zero => rfl
      | succ j =>
        have hj' : j < ts.length := Nat.lt_of_succ_lt_succ hj
        simpa [AssociateByOrder] using ih [] j hj'
    | cons r rs =>
      cases j with
      | zero => rfl
      | succ j =>
        have hj' : j < ts.length := Nat.lt_of_succ_lt_succ hj
        simpa [AssociateByOrder] using ih rs j hj'

/-! ### Renderer lemmas -/

theorem sameMeta_refl (a : Composed) : sameMeta a a :=
  ⟨rfl, rfl, rfl, rfl, rfl, rfl, rfl, rfl⟩

theorem sameMeta_trans {a b c : Composed} (h1 : sameMeta a b) (h2 : sameMeta b c) :
    sameMeta a c := by
  obtain ⟨x1, x2, x3, x4, x5, x6, x7, x8⟩ := h1
  obtain ⟨y1, y2, y3, y4, y5, y6, y7, y8⟩ := h2
  exact ⟨x1.trans y1, x2.trans y2, x3.trans y3, x4.trans y4, x5.trans y5,
    x6.trans y6, x7.trans y7, x8.trans y8⟩

theorem apply_ok_sameMeta (p : Patch) (cp : Composite) (cd : Composed) (al : List PatchType)
    (cp1 : Composite) (cd1 : Composed) (h : Apply p cp cd al = .ok (cp1, cd1)) :
    sameMeta cd1 cd := by
  unfold Apply at h
  repeat' split at h
  all_goals
    first
      | (injection h with h2
         injection h2 with ha hb
         subst hb
         exact ⟨rfl, rfl, rfl, rfl, rfl, rfl, rfl, rfl⟩)
      | (injection h)

theorem applyToObjects_ok_sameMeta (p : Patch) (e : Environment) (cd : Composed)
    (al : List PatchType) (e1 : Environment) (cd1 : Composed)
    (h : ApplyToObjects p e cd al = .ok (e1, cd1)) : sameMeta cd1 cd := by
  unfold ApplyToObjects at h
  repeat' split at h
  all_goals
    first
      | (injection h with h2
         injection h2 with ha hb
         subst hb
         exact ⟨rfl, rfl, rfl, rfl, rfl, rfl, rfl, rfl⟩)
      | (injection h)

theorem applyTemplatePatches_sameMeta (ps : List Patch) :
    ∀ (cp : Composite) (cd : Composed) (e : Option Environment) (i : Nat),
      sameMeta (applyTemplatePatches cp cd e ps i).cd cd := by
  induction ps with
  | nil => intro cp cd e i; exact sameMeta_refl cd
  | cons p ps ih =>
    intro cp cd e i
    unfold applyTemplatePatches
    cases hA : Apply p cp cd patchTypesFromXR with
    | error u => exact sameMeta_refl cd
    | ok pr =>
      obtain ⟨cp1, cd1⟩ := pr
      have hm1 := apply_ok_sameMeta p cp cd _ cp1 cd1 hA
      dsimp only
      cases e with
      | none => exact sameMeta_trans (ih cp1 cd1 none (i + 1)) hm1
      | some ev =>
        dsimp only
        cases hB : ApplyToObjects p ev cd1 patchTypesFromToEnvironment with
        | error u => exact hm1
        | ok pr2 =>
          obtain ⟨ev1, cd2⟩ := pr2
          have hm2 := applyToObjects_ok_sameMeta p ev cd1 _ ev1 cd2 hB
          dsimp only
          exact sameMeta_trans (sameMeta_trans (ih cp1 cd2 (some ev1) (i + 1)) hm2) hm1

theorem stampLabels_meta (cp : Composite) (cd : Composed) :
    (stampLabels cp cd).name = cd.name ∧ (stampLabels cp cd).ns = cd.ns ∧
    (stampLabels cp cd).kind = cd.kind ∧ (stampLabels cp cd).generateName = cd.generateName ∧
    (stampLabels cp cd).ownerRef = cd.ownerRef ∧ (stampLabels cp cd).fields = cd.fields ∧
    (stampLabels cp cd).annots = cd.annots :=
  ⟨rfl, rfl, rfl, rfl, rfl, rfl, rfl⟩

theorem stampResourceName_meta (t : ComposedTemplate) (cd : Composed) :
    (stampResourceName t cd).name = cd.name ∧ (stampResourceName t cd).ns = cd.ns ∧
    (stampResourceName t cd).kind = cd.kind ∧
    (stampResourceName t cd).generateName = cd.generateName ∧
    (stampResourceName t cd).ownerRef = cd.ownerRef ∧
    (stampResourceName t cd).fields = cd.fields ∧
    (stampResourceName t cd).labels = cd.labels := by
  unfold stampResourceName
  cases t.name <;> exact ⟨rfl, rfl, rfl, rfl, rfl, rfl, rfl⟩

theorem addControllerReference_ok_meta (cd : Composed) (o : OwnerReference) (cd6 : Composed)
    (h : addControllerReference cd o = .ok cd6) :
    cd6.name = cd.name ∧ cd6.ns = cd.ns ∧ cd6.kind = cd.kind ∧
    cd6.generateName = cd.generateName ∧ cd6.fields = cd.fields ∧
    cd6.labels = cd.labels ∧ cd6.annots = cd.annots := by
  unfold addControllerReference at h
  repeat' split at h
  all_goals
    first
      | (injection h with h2
         subst h2
         exact ⟨rfl, rfl, rfl, rfl, rfl, rfl, rfl⟩)
      | (injection h)

theorem renderBase_meta (cp : Composite) (cd : Composed) (t : ComposedTemplate) :
    (renderBase cp cd t).name = cd.name ∧ (renderBase cp cd t).ns = cd.ns ∧
    (renderBase cp cd t).kind = t.base.kind ∧
    (renderBase cp cd t).generateName = lookupD cp.labels LabelKeyNamePfx ++ "-" ∧
    (renderBase cp cd t).ownerRef = t.base.ownerRef :=
  ⟨rfl, rfl, rfl, rfl, rfl⟩

theorem renderPatchPhase_cd_meta (cp : Composite) (cd : Composed) (t : ComposedTemplate)
    (env : Option Environment) :
    (renderPatchPhase cp cd t env).cd.name = cd.name ∧
    (renderPatchPhase cp cd t env).cd.ns = cd.ns ∧
    (renderPatchPhase cp cd t env).cd.kind = t.base.kind ∧
    (renderPatchPhase cp cd t env).cd.generateName = lookupD cp.labels LabelKeyNamePfx ++ "-" ∧
    (renderPatchPhase cp cd t env).cd.ownerRef = t.base.ownerRef := by
  have hm := applyTemplatePatches_sameMeta t.patches cp (renderBase cp cd t) env 0
  obtain ⟨m1, m2, m3, m4, m5, m6, m7, m8⟩ := hm
  exact ⟨m1, m2, m3, m4, m5⟩

theorem render_ok_inversion (cp : Composite) (cd : Composed) (t : ComposedTemplate)
    (env : Option Environment) (h : (Render cp cd t env).err = none) :
    ¬(cd.kind ≠ "" ∧ t.base.kind ≠ cd.kind) ∧
    lookupD cp.labels LabelKeyNamePfx ≠ "" ∧
    (renderPatchPhase cp cd t env).errIdx = none ∧
    ∃ cd6,
      addControllerReference
          (stampResourceName t (stampLabels cp (renderPatchPhase cp cd t env).cd))
          (asController cp) = .ok cd6 ∧
      Render cp cd t env =
        ⟨(renderPatchPhase cp cd t env).cp, cd6, (renderPatchPhase cp cd t env).env, none⟩ := by
  by_cases h1 : cd.kind ≠ "" ∧ t.base.kind ≠ cd.kind
  · exact absurd h (by simp [Render, h1])
  by_cases h2 : lookupD cp.labels LabelKeyNamePfx = ""
  · exact absurd h (by simp [Render, h1, h2])
  cases hpp : (renderPatchPhase cp cd t env).errIdx with
  | some i => exact absurd h (by simp [Render, h1, h2, hpp])
  | none =>
    cases hac : addControllerReference
        (stampResourceName t (stampLabels cp (renderPatchPhase cp cd t env).cd))
        (asController cp) with
    | error u => exact absurd h (by simp [Render, h1, h2, hpp, hac])
    | ok cd6 =>
      exact ⟨h1, h2, rfl, cd6, rfl, by simp [Render, h1, h2, hpp, hac]⟩

theorem lookup?_setKey_self (m : List (String × String)) (k v : String) :
    lookup? (setKey m k v) k = some v := by
  induction m with
  | nil => simp [setKey, lookup?]
  | cons kv rest ih =>
    by_cases hk : kv.1 = k
    · simp [setKey, hk, lookup?]
    · simp [setKey, hk, lookup?, ih]

theorem renderResult_eta (r : RenderResult) (h : r.err = none) :
    r = ⟨r.cp, r.cd, r.env, none⟩ := by
  obtain ⟨a, b, c, d⟩ := r
  have h' : d = none := h
  subst h'
  rfl

/-! ### Claim theorems: association -/

/-- C1 (code evaluated at the failing input): with the single named template
`"a"` and an existing reference recorded on the composite,
`AssociateTemplates` returns one association carrying the empty reference —
the existing reference is neither paired with its template nor surfaced in any
orphaned-reference output (the function has none), contradicting the
associator's own documentation. -/
theorem associate_named_drops_existing_refs :
    GCAssociateTemplates xrOneRef [tmplNamedA] =
      [{ Template := tmplNamedA, Reference := ObjectReference.empty }] ∧
    ObjectReference.empty ≠ refLegacy := by
  exact ⟨rfl, by decide⟩

/-- C2: if any template lacks a name, association degrades to strict
positional pairing: the result is `AssociateByOrder`, has exactly one entry
per template in template order, entry `j` carries reference `j` when
`j < len(references)` and the zero reference otherwise, and references beyond
`len(templates)` are truncated. -/
theorem associate_positional_fallback (cr : Composite) (ct : List ComposedTemplate)
    (h : ct.any (fun t => t.name.isNone) = true) :
    GCAssociateTemplates cr ct = AssociateByOrder ct cr.resourceRefs ∧
    (GCAssociateTemplates cr ct).length = ct.length ∧
    ∀ j, j < ct.length →
      (GCAssociateTemplates cr ct).getD j TemplateAssociation.empty =
        { Template := ct.getD j ComposedTemplate.empty,
          Reference := cr.resourceRefs.getD j ObjectReference.empty } := by
  have he : GCAssociateTemplates cr ct = AssociateByOrder ct cr.resourceRefs := by
    simp [GCAssociateTemplates, h]
  refine ⟨he, ?_, ?_⟩
  · rw [he]; exact length_associateByOrder ct cr.resourceRefs
  · intro j hj
    rw [he]; exact associateByOrder_getD ct cr.resourceRefs j hj

/-- Witness for C2 at a Composition of one anonymous and one named template
against three existing references. -/
theorem associate_positional_fallback_witness :
    ([tmplAnon, tmplNamedA].any (fun t => t.name.isNone) = true) ∧
    (GCAssociateTemplates xrThreeRefs [tmplAnon, tmplNamedA] =
        AssociateByOrder [tmplAnon, tmplNamedA] xrThreeRefs.resourceRefs ∧
      (GCAssociateTemplates xrThreeRefs [tmplAnon, tmplNamedA]).length =
        ([tmplAnon, tmplNamedA] : List ComposedTemplate).length ∧
      ∀ j, j < ([tmplAnon, tmplNamedA] : List ComposedTemplate).length →
        (GCAssociateTemplates xrThreeRefs [tmplAnon, tmplNamedA]).getD j
            TemplateAssociation.empty =
          { Template := List.getD [tmplAnon, tmplNamedA] j ComposedTemplate.empty,
            Reference := xrThreeRefs.resourceRefs.getD j ObjectReference.empty }) :=
  ⟨by decide, associate_positional_fallback xrThreeRefs [tmplAnon, tmplNamedA] (by decide)⟩

/-! ### Claim theorems: renderer -/

/-- C5 counterexample: at a concrete existing resource of kind `Bucket` and a
template whose base kind is `Cache`, `Render` fails with the kind-change error
but the composed resource visible to the caller is no longer the input — it
has been overwritten by the unmarshalled base before the check. -/
theorem render_kind_change_mutates :
    (Render cpOK cdPrior tKindChange none).err = some .kindChanged ∧
    (Render cpOK cdPrior tKindChange none).cd ≠ cdPrior := by
  constructor
  · decide
  · decide

/-- C5 (amended): when the pre-render kind is non-empty and differs from the
base's kind, `Render` fails with the kind-change error; the composed resource
the caller sees is however exactly the template's unmarshalled base (the prior
name and namespace not yet restored) — the in-place overwrite is visible. -/
theorem render_kind_change_fails (cp : Composite) (cd : Composed) (t : ComposedTemplate)
    (env : Option Environment) (h1 : cd.kind ≠ "") (h2 : t.base.kind ≠ cd.kind) :
    Render cp cd t env = ⟨cp, t.base, env, some .kindChanged⟩ := by
  simp [Render, h1, h2]

/-- Witness for the amended C5 at the concrete kind-changing input. -/
theorem render_kind_change_fails_witness :
    cdPrior.kind ≠ "" ∧ tKindChange.base.kind ≠ cdPrior.kind ∧
    Render cpOK cdPrior tKindChange none =
      ⟨cpOK, tKindChange.base, none, some .kindChanged⟩ :=
  ⟨by decide, by decide,
    render_kind_change_fails cpOK cdPrior tKindChange none (by decide) (by decide)⟩

/-- C9: every successfully rendered composed resource carries the generate
name `<name-prefix label>-`, set unconditionally — whatever name or generate
name the resource carried before rendering. -/
theorem render_sets_generate_name (cp : Composite) (cd : Composed) (t : ComposedTemplate)
    (env : Option Environment) (h : (Render cp cd t env).err = none) :
    (Render cp cd t env).cd.generateName = lookupD cp.labels LabelKeyNamePfx ++ "-" := by
  obtain ⟨h1, h2, hpp, cd6, hac, hres⟩ := render_ok_inversion cp cd t env h
  simp only [hres]
  have hself := addControllerReference_ok_meta _ _ _ hac
  have hstampR := stampResourceName_meta t (stampLabels cp (renderPatchPhase cp cd t env).cd)
  have hstampL := stampLabels_meta cp (renderPatchPhase cp cd t env).cd
  have hphase := renderPatchPhase_cd_meta cp cd t env
  calc cd6.generateName
      = (stampResourceName t (stampLabels cp (renderPatchPhase cp cd t env).cd)).generateName :=
        hself.2.2.2.1
    _ = (stampLabels cp (renderPatchPhase cp cd t env).cd).generateName := hstampR.2.2.2.1
    _ = (renderPatchPhase cp cd t env).cd.generateName := hstampL.2.2.2.1
    _ = lookupD cp.labels LabelKeyNamePfx ++ "-" := hphase.2.2.2.1

/-- C8: rendering an already-named composed resource a second time — same
composite, template and environment, applied to the first render's successful
result — returns exactly the first result again, composed resource,
composite and environment included. -/
theorem render_idempotent (cp : Composite) (cd : Composed) (t : ComposedTemplate)
    (env : Option Environment) (cp1 : Composite) (cd1 : Composed) (env1 : Option Environment)
    (_hname : cd.name ≠ "")
    (h : Render cp cd t env = ⟨cp1, cd1, env1, none⟩) :
    Render cp cd1 t env = ⟨cp1, cd1, env1, none⟩ := by
  have herr : (Render cp cd t env).err = none := by rw [h]
  obtain ⟨h1, h2, hpp, cd6, hac, hres⟩ := render_ok_inversion cp cd t env herr
  rw [h] at hres
  injection hres with hcp1 hcd1 henv1 hx
  subst hcp1
  subst hcd1
  subst henv1
  have hself := addControllerReference_ok_meta _ _ _ hac
  have hstampR := stampResourceName_meta t (stampLabels cp (renderPatchPhase cp cd t env).cd)
  have hstampL := stampLabels_meta cp (renderPatchPhase cp cd t env).cd
  have hphase := renderPatchPhase_cd_meta cp cd t env
  have hname6 : cd1.name = cd.name :=
    ((hself.1.trans hstampR.1).trans hstampL.1).trans hphase.1
  have hns6 : cd1.ns = cd.ns :=
    ((hself.2.1.trans hstampR.2.1).trans hstampL.2.1).trans hphase.2.1
  have hkind6 : cd1.kind = t.base.kind :=
    ((hself.2.2.1.trans hstampR.2.2.1).trans hstampL.2.2.1).trans hphase.2.2.1
  have hg1 : ¬(cd1.kind ≠ "" ∧ t.base.kind ≠ cd1.kind) := by
    rintro ⟨-, hne⟩
    exact hne hkind6.symm
  have hbase : renderBase cp cd1 t = renderBase cp cd t := by
    unfold renderBase
    rw [hname6, hns6]
  have hphase2 : renderPatchPhase cp cd1 t env = renderPatchPhase cp cd t env := by
    unfold renderPatchPhase
    rw [hbase]
  simp [Render, hg1, h2, hphase2, hpp, hac]

/-- Witness for C8: the real renderer applied twice over a named resource. -/
theorem render_idempotent_witness :
    cdNamed.name ≠ "" ∧
    Render cpOK (Render cpOK cdNamed tOK none).cd tOK none =
      ⟨(Render cpOK cdNamed tOK none).cp, (Render cpOK cdNamed tOK none).cd,
        (Render cpOK cdNamed tOK none).env, none⟩ :=
  ⟨by decide,
    render_idempotent cpOK cdNamed tOK none _ _ _ (by decide)
      (renderResult_eta (Render cpOK cdNamed tOK none) (by decide))⟩

/-- Witness for C9: a successful render over a resource that already had a
concrete name and a different generate name. -/
theorem render_sets_generate_name_witness :
    (Render cpOK cdNamed tOK none).err = none ∧
    (Render cpOK cdNamed tOK none).cd.generateName = lookupD cpOK.labels LabelKeyNamePfx ++ "-" :=
  ⟨by decide, render_sets_generate_name cpOK cdNamed tOK none (by decide)⟩

/-- C7 counterexample: with a composite-sourced patch at index 0 and an
environment-sourced patch at index 1 writing the same destination, rendering
succeeds and the destination holds the environment's value `"E"`, not the
composite's `"C"`; with the template order reversed the composite's value
wins.  Precedence is by template order, not by source. -/
theorem render_composite_precedence_counterexample :
    ((Render cpOK Composed.empty tC7 (some eC7)).err = none ∧
      lookup? (Render cpOK Composed.empty tC7 (some eC7)).cd.fields "spec.x" = some "E" ∧
      some "E" ≠ some "C") ∧
    ((Render cpOK Composed.empty tC7rev (some eC7)).err = none ∧
      lookup? (Render cpOK Composed.empty tC7rev (some eC7)).cd.fields "spec.x" = some "C") := by
  exact ⟨⟨by decide, by decide, by decide⟩, ⟨by decide, by decide⟩⟩

/-- C7 (amended): composite-sourced and environment-sourced patches are
applied in one pass in template order (each index through the composite filter
first, then the environment filter); on a conflicting destination path the
patch later in template order takes precedence — in particular an
environment-sourced patch following a composite-sourced one overrides it. -/
theorem render_patch_order (cp : Composite) (e : Environment) (cd : Composed)
    (t : ComposedTemplate) (srcC srcE dst vC vE : String)
    (hk : cd.kind = "")
    (hpfx : lookupD cp.labels LabelKeyNamePfx ≠ "")
    (howner : t.base.ownerRef = none)
    (hps : t.patches =
      [{ type := .fromComposite, patchSetName := "", fromFieldPath := srcC,
         toFieldPath := dst, required := false },
       { type := .fromEnvironment, patchSetName := "", fromFieldPath := srcE,
         toFieldPath := dst, required := false }])
    (hC : lookup? cp.fields srcC = some vC)
    (hE : lookup? e.fields srcE = some vE) :
    (Render cp cd t (some e)).err = none ∧
    lookup? (Render cp cd t (some e)).cd.fields dst = some vE := by
  have hg1 : ¬(cd.kind ≠ "" ∧ t.base.kind ≠ cd.kind) := by simp [hk]
  have hphase : renderPatchPhase cp cd t (some e) =
      ⟨cp, twoPatchResult cp cd t dst vC vE, some e, none⟩ := by
    unfold renderPatchPhase
    rw [hps]
    simp [applyTemplatePatches, Apply, ApplyToObjects, patchTypesFromXR,
      patchTypesFromToEnvironment, hC, hE, twoPatchResult]
  have h5 : (stampResourceName t (stampLabels cp (twoPatchResult cp cd t dst vC vE))).ownerRef =
      none := by
    have hsr := stampResourceName_meta t (stampLabels cp (twoPatchResult cp cd t dst vC vE))
    have hsl := stampLabels_meta cp (twoPatchResult cp cd t dst vC vE)
    rw [hsr.2.2.2.2.1, hsl.2.2.2.2.1]
    exact howner
  have hac : addControllerReference
      (stampResourceName t (stampLabels cp (twoPatchResult cp cd t dst vC vE)))
      (asController cp) =
      .ok { stampResourceName t (stampLabels cp (twoPatchResult cp cd t dst vC vE)) with
            ownerRef := some (asController cp) } := by
    simp [addControllerReference, h5]
  have hR : Render cp cd t (some e) =
      ⟨cp,
       { stampResourceName t (stampLabels cp (twoPatchResult cp cd t dst vC vE)) with
         ownerRef := some (asController cp) },
       some e, none⟩ := by
    simp [Render, hg1, hpfx, hphase, hac]
  refine ⟨by rw [hR], ?_⟩
  rw [hR]
  dsimp only
  have hsr := stampResourceName_meta t (stampLabels cp (twoPatchResult cp cd t dst vC vE))
  have hsl := stampLabels_meta cp (twoPatchResult cp cd t dst vC vE)
  rw [hsr.2.2.2.2.2.1, hsl.2.2.2.2.2.1]
  exact lookup?_setKey_self _ dst vE

/-- Witness for the amended C7 at the concrete conflicting-destination input. -/
theorem render_patch_order_witness :
    (Render cpOK Composed.empty tC7 (some eC7)).err = none ∧
    lookup? (Render cpOK Composed.empty tC7 (some eC7)).cd.fields "spec.x" = some "E" :=
  render_patch_order cpOK eC7 Composed.empty tC7 "spec.c" "data.e" "spec.x" "C" "E"
    (by decide) (by decide) (by decide) (by decide) (by decide) (by decide)

/-! ### Composer lemmas -/

theorem composeLoop_states_length (r : RenderFn) (tas : List TemplateAssociation) :
    ∀ (cp : Composite) (e : Option Environment) (i : Nat),
      (composeLoop r tas cp e i).states.length = tas.length := by
  induction tas with
  | nil => intro cp e i; rfl
  | cons ta tas ih =>
    intro cp e i
    simp [composeLoop, ih]

theorem composeLoop_refs_eq (r : RenderFn) (tas : List TemplateAssociation) :
    ∀ (cp : Composite) (e : Option Environment) (i : Nat),
      (composeLoop r tas cp e i).refs =
        (composeLoop r tas cp e i).states.map (fun s => referenceTo s.Resource) := by
  induction tas with
  | nil => intro cp e i; rfl
  | cons ta tas ih =>
    intro cp e i
    simp [composeLoop, ih]

theorem composeLoop_strip (r : RenderFn) (tas : List TemplateAssociation) :
    ∀ (cp : Composite) (e : Option Environment) (i : Nat),
      composeLoop (stripRenderErr r) tas cp e i =
        { composeLoop r tas cp e i with
          states := (composeLoop r tas cp e i).states.map
            (fun s => { s with TemplateRenderErr := none }) } := by
  induction tas with
  | nil => intro cp e i; rfl
  | cons ta tas ih =>
    intro cp e i
    simp [composeLoop, stripRenderErr, ih]

theorem composeLoop_getD (r : RenderFn) : ∀ (tas : List TemplateAssociation)
    (cp : Composite) (e : Option Environment) (i j : Nat), j < tas.length →
    (composeLoop r tas cp e i).states.getD j ComposedResourceState.empty =
      loopEntry r tas cp e i j := by
  intro tas
  induction tas with
  | nil => intro cp e i j hj; exact absurd hj (by simp)
  | cons ta tas ih =>
    intro cp e i j hj
    cases j with
    | zero =>
      simp [composeLoop, loopEntry]
    | succ j =>
      have hj' : j < tas.length := Nat.lt_of_succ_lt_succ hj
      have harith : i + (j + 1) = (i + 1) + j := by omega
      have hL : (composeLoop r (ta :: tas) cp e i).states.getD (j + 1)
            ComposedResourceState.empty =
          (composeLoop r tas (r cp (composedFromReference ta.Reference) ta.Template e).cp
              (r cp (composedFromReference ta.Reference) ta.Template e).env (i + 1)).states.getD j
            ComposedResourceState.empty := by
        simp [composeLoop]
      rw [hL, ih _ _ _ j hj']
      unfold loopEntry
      simp only [List.take_succ_cons, List.getD_cons_succ, composeLoop, harith]

theorem composeRest_spec (render : RenderFn) (xr1 : Composite) (env1 : Option Environment)
    (tas : List TemplateAssociation) (cds : List ComposedResourceState)
    (h : (composeRest render xr1 env1 tas).result = .ok cds) :
    cds = (composeLoop render tas xr1 env1 0).states := by
  have h' : Except.ok (ε := ComposeErr) (composeLoop render tas xr1 env1 0).states =
      Except.ok cds := h
  injection h' with h2
  exact h2.symm

theorem loop_states_spec (render : RenderFn) (tas : List TemplateAssociation)
    (xr1 : Composite) (env1 : Option Environment) (cds : List ComposedResourceState)
    (hcds : cds = (composeLoop render tas xr1 env1 0).states) :
    cds.length = tas.length ∧
    (∀ j, j < cds.length →
      cds.getD j ComposedResourceState.empty = loopEntry render tas xr1 env1 0 j) ∧
    (composeLoop (stripRenderErr render) tas xr1 env1 0).states =
      cds.map (fun s => { s with TemplateRenderErr := none }) := by
  subst hcds
  refine ⟨composeLoop_states_length render tas xr1 env1 0, ?_, ?_⟩
  · intro j hj
    exact composeLoop_getD render tas xr1 env1 0 j
      (by rwa [composeLoop_states_length] at hj)
  · rw [composeLoop_strip]

theorem composeWithEnv_fail (render : RenderFn) (xr : Composite) (e : Environment)
    (es : EnvironmentSpec) (tas : List TemplateAssociation) (xr1 : Composite)
    (e1 : Environment) (i : Nat)
    (hap : applyEnvironmentPatches es.patches xr e 0 = (xr1, e1, some i)) :
    composeWithEnv render xr e es tas = ⟨xr1, some e1, .error (.envPatch i)⟩ := by
  unfold composeWithEnv
  rw [hap]

theorem composeWithEnv_ok (render : RenderFn) (xr : Composite) (e : Environment)
    (es : EnvironmentSpec) (tas : List TemplateAssociation) (xr1 : Composite) (e1 : Environment)
    (hap : applyEnvironmentPatches es.patches xr e 0 = (xr1, e1, none)) :
    composeWithEnv render xr e es tas = composeRest render xr1 (some e1) tas := by
  unfold composeWithEnv
  rw [hap]

theorem compose_inline_fail (render : RenderFn) (xr : Composite) (req : CompositionRequest)
    (h : ComposedTemplates req.composition = .error ()) :
    Compose render xr req = ⟨xr, req.environment, .error .inline⟩ := by
  unfold Compose
  rw [h]

theorem compose_reduce (render : RenderFn) (xr : Composite) (req : CompositionRequest)
    (ct : List ComposedTemplate) (hct : ComposedTemplates req.composition = .ok ct) :
    Compose render xr req =
      match req.environment, req.composition.environment with
      | some e, some es => composeWithEnv render xr e es (GCAssociateTemplates xr ct)
      | oenv, _ => composeRest render xr oenv (GCAssociateTemplates xr ct) := by
  unfold Compose
  rw [hct]

theorem compose_success_form (render : RenderFn) (xr : Composite) (req : CompositionRequest)
    (ct : List ComposedTemplate) (cds : List ComposedResourceState)
    (hct : ComposedTemplates req.composition = .ok ct)
    (hok : (Compose render xr req).result = .ok cds) :
    ∃ xr1 env1, Compose render xr req = composeRest render xr1 env1 (GCAssociateTemplates xr ct) := by
  have hred := compose_reduce render xr req ct hct
  cases henv : req.environment with
  | none =>
    rw [henv] at hred
    exact ⟨xr, none, hred.trans (by rfl)⟩
  | some e =>
    cases hes : req.composition.environment with
    | none =>
      rw [henv, hes] at hred
      exact ⟨xr, some e, hred.trans (by rfl)⟩
    | some es =>
      rw [henv, hes] at hred
      have hred2 : Compose render xr req =
          composeWithEnv render xr e es (GCAssociateTemplates xr ct) := hred.trans (by rfl)
      rcases hap : applyEnvironmentPatches es.patches xr e 0 with ⟨xr1, e1, oi⟩
      cases oi with
      | some i =>
        have hfail := composeWithEnv_fail render xr e es (GCAssociateTemplates xr ct) xr1 e1 i hap
        rw [hred2, hfail] at hok
        exact Except.noConfusion hok
      | none =>
        have hsucc := composeWithEnv_ok render xr e es (GCAssociateTemplates xr ct) xr1 e1 hap
        exact ⟨xr1, some e1, hred2.trans hsucc⟩

theorem applyEnvironmentPatch_cp_refs (p : EnvironmentPatch) (cp : Composite) (e : Environment)
    (cp1 : Composite) (e1 : Environment) (h : ApplyEnvironmentPatch p cp e = .ok (cp1, e1)) :
    cp1.resourceRefs = cp.resourceRefs := by
  unfold ApplyEnvironmentPatch at h
  repeat' split at h
  all_goals
    first
      | (injection h with h2
         injection h2 with ha hb
         subst ha
         rfl)
      | (injection h)

theorem applyEnvironmentPatches_refs : ∀ (ps : List EnvironmentPatch) (cp : Composite)
    (e : Environment) (i : Nat),
    (applyEnvironmentPatches ps cp e i).1.resourceRefs = cp.resourceRefs := by
  intro ps
  induction ps with
  | nil => intro cp e i; rfl
  | cons p ps ih =>
    intro cp e i
    unfold applyEnvironmentPatches
    cases hA : ApplyEnvironmentPatch p cp e with
    | error u => rfl
    | ok pr =>
      obtain ⟨cp1, e1⟩ := pr
      dsimp only
      exact (ih cp1 e1 (i + 1)).trans (applyEnvironmentPatch_cp_refs p cp e cp1 e1 hA)

/-! ### Claim theorems: composer -/

/-- C3: whenever `Compose` reaches its render loop (inlining and environment
patches succeeded), the returned state array has exactly one entry per
associated template; entry `j` is exactly what `j`'s own render call produced
— its recorded `RenderError` is that call's error (non-nil exactly when the
render failed) and its resource that call's output; and suppressing every
render error (`stripRenderErr`) leaves every entry — and the threaded
composite/environment — unchanged except for the cleared error fields, so one
resource's failure never aborts or alters the rendering of its siblings. -/
theorem compose_failure_isolation (render : RenderFn) (xr : Composite)
    (req : CompositionRequest) (ct : List ComposedTemplate)
    (cds : List ComposedResourceState)
    (hct : ComposedTemplates req.composition = .ok ct)
    (hok : (Compose render xr req).result = .ok cds) :
    ∃ xr1 env1,
      cds = (composeLoop render (GCAssociateTemplates xr ct) xr1 env1 0).states ∧
      cds.length = (GCAssociateTemplates xr ct).length ∧
      (∀ j, j < cds.length →
        cds.getD j ComposedResourceState.empty =
          loopEntry render (GCAssociateTemplates xr ct) xr1 env1 0 j) ∧
      (composeLoop (stripRenderErr render) (GCAssociateTemplates xr ct) xr1 env1 0).states =
        cds.map (fun s => { s with TemplateRenderErr := none }) := by
  obtain ⟨xr1, env1, hcomp⟩ := compose_success_form render xr req ct cds hct hok
  rw [hcomp] at hok
  have hcds := composeRest_spec render xr1 env1 (GCAssociateTemplates xr ct) cds hok
  exact ⟨xr1, env1, hcds,
    loop_states_spec render (GCAssociateTemplates xr ct) xr1 env1 cds hcds⟩

/-- Witness for C3: the real renderer over one rendering and one failing
template; entry 0 renders without error, entry 1 records its own failure. -/
theorem compose_failure_isolation_witness :
    ((cdsMixed.getD 0 ComposedResourceState.empty).TemplateRenderErr = none ∧
      (cdsMixed.getD 1 ComposedResourceState.empty).TemplateRenderErr ≠ none ∧
      cdsMixed.length = 2) ∧
    (∃ xr1 env1,
      cdsMixed = (composeLoop Render (GCAssociateTemplates cpOK [tOK, tBad]) xr1 env1 0).states ∧
      cdsMixed.length = (GCAssociateTemplates cpOK [tOK, tBad]).length ∧
      (∀ j, j < cdsMixed.length →
        cdsMixed.getD j ComposedResourceState.empty =
          loopEntry Render (GCAssociateTemplates cpOK [tOK, tBad]) xr1 env1 0 j) ∧
      (composeLoop (stripRenderErr Render) (GCAssociateTemplates cpOK [tOK, tBad]) xr1 env1 0).states =
        cdsMixed.map (fun s => { s with TemplateRenderErr := none })) :=
  ⟨⟨by decide, by decide, by decide⟩,
    compose_failure_isolation Render cpOK reqMixed [tOK, tBad] cdsMixed rfl rfl⟩

/-- C4: when `Compose` returns without a fatal error, the composite it hands
back carries a resource-reference list with exactly one reference per
associated template, in template order — the reference to each entry's
rendered resource, entries with render errors included — set before the call
returns. -/
theorem compose_sets_references (render : RenderFn) (xr : Composite)
    (req : CompositionRequest) (ct : List ComposedTemplate)
    (cds : List ComposedResourceState)
    (hct : ComposedTemplates req.composition = .ok ct)
    (hok : (Compose render xr req).result = .ok cds) :
    (Compose render xr req).xr.resourceRefs = cds.map (fun s => referenceTo s.Resource) ∧
    cds.length = (GCAssociateTemplates xr ct).length := by
  obtain ⟨xr1, env1, hcomp⟩ := compose_success_form render xr req ct cds hct hok
  rw [hcomp] at hok ⊢
  have hcds := composeRest_spec render xr1 env1 (GCAssociateTemplates xr ct) cds hok
  constructor
  · show (composeLoop render (GCAssociateTemplates xr ct) xr1 env1 0).refs = _
    rw [composeLoop_refs_eq, hcds]
  · rw [hcds]
    exact composeLoop_states_length render (GCAssociateTemplates xr ct) xr1 env1 0

/-- Witness for C4 at the mixed success/failure request. -/
theorem compose_sets_references_witness :
    (Compose Render cpOK reqMixed).xr.resourceRefs =
        cdsMixed.map (fun s => referenceTo s.Resource) ∧
    cdsMixed.length = (GCAssociateTemplates cpOK [tOK, tBad]).length :=
  compose_sets_references Render cpOK reqMixed [tOK, tBad] cdsMixed rfl rfl

/-- C6 counterexample: at a concrete request whose environment patch 0
succeeds (copying a value onto the composite) and whose patch 1 fails,
`Compose` aborts with the environment-patch error but the composite visible
to the caller is no longer the input — the claim's "leaves the composite
resource unmodified" fails. -/
theorem compose_env_patch_mutates_composite :
    (Compose idRender xrPlain reqEnvFail).result = .error (.envPatch 1) ∧
    (Compose idRender xrPlain reqEnvFail).xr ≠ xrPlain := by
  constructor
  · rfl
  · decide

/-- C6 (amended): a patch-set inlining failure aborts `Compose` before
anything is rendered and leaves the composite (and environment) exactly as
supplied; an environment-patch failure at index `i` likewise aborts before
any composed resource is rendered — the output is independent of the renderer
— and before the resource-reference list is touched, but environment patches
at indices below `i` may already have mutated the composite's fields. -/
theorem compose_fatal_aborts :
    (∀ (render : RenderFn) (xr : Composite) (req : CompositionRequest),
      ComposedTemplates req.composition = .error () →
      Compose render xr req = ⟨xr, req.environment, .error .inline⟩) ∧
    (∀ (render : RenderFn) (xr : Composite) (req : CompositionRequest)
        (ct : List ComposedTemplate) (e : Environment) (es : EnvironmentSpec)
        (xr1 : Composite) (e1 : Environment) (i : Nat),
      ComposedTemplates req.composition = .ok ct →
      req.environment = some e →
      req.composition.environment = some es →
      applyEnvironmentPatches es.patches xr e 0 = (xr1, e1, some i) →
      Compose render xr req = ⟨xr1, some e1, .error (.envPatch i)⟩ ∧
      xr1.resourceRefs = xr.resourceRefs) := by
  constructor
  · intro render xr req h
    exact compose_inline_fail render xr req h
  · intro render xr req ct e es xr1 e1 i hct henv hes hap
    constructor
    · have hred := compose_reduce render xr req ct hct
      rw [henv, hes] at hred
      have hred2 : Compose render xr req =
          composeWithEnv render xr e es (GCAssociateTemplates xr ct) := hred.trans (by rfl)
      exact hred2.trans
        (composeWithEnv_fail render xr e es (GCAssociateTemplates xr ct) xr1 e1 i hap)
    · have hpres := applyEnvironmentPatches_refs es.patches xr e 0
      rw [hap] at hpres
      exact hpres

/-- Witness for C6: the environment-patch conjunct at the concrete failing
request (patch 0 mutates the composite, patch 1 fails). -/
theorem compose_fatal_aborts_witness :
    Compose idRender xrPlain reqEnvFail =
      ⟨{ xrPlain with fields := [("x", "V")] }, some eEnv, .error (.envPatch 1)⟩ ∧
    ({ xrPlain with fields := [("x", "V")] } : Composite).resourceRefs = xrPlain.resourceRefs :=
  compose_fatal_aborts.2 idRender xrPlain reqEnvFail [] eEnv
    { patches := [envPatch0, envPatch1] }
    { xrPlain with fields := [("x", "V")] } eEnv 1 rfl rfl rfl rfl

/-! ### Claim theorems: space client -/

/-- C10: `Create` with an empty `SecretName` gives the created ControlPlane a
write-connection-secret reference named `kubeconfig-<name>`; a non-empty
`SecretName` is used unchanged. -/
theorem create_secret_name_defaulting (name : String) (opts : Options) :
    (opts.SecretName = "" →
      (createControlPlaneObject name opts).writeConnectionSecretToRef =
        some { name := "kubeconfig-" ++ name, ns := opts.SecretNamespace }) ∧
    (opts.SecretName ≠ "" →
      (createControlPlaneObject name opts).writeConnectionSecretToRef =
        some { name := opts.SecretName, ns := opts.SecretNamespace }) := by
  constructor <;> intro h <;> simp [createControlPlaneObject, calculateSecret, h]

/-- Witness for C10: the defaulted branch at a concrete name and namespace. -/
theorem create_secret_name_defaulting_witness :
    (createControlPlaneObject "ctp1" { SecretName := "", SecretNamespace := "ns1" }).writeConnectionSecretToRef =
      some { name := "kubeconfig-ctp1", ns := "ns1" } :=
  (create_secret_name_defaulting "ctp1" { SecretName := "", SecretNamespace := "ns1" }).1 rfl

end Up
